import Mathlib

/-!
Formal model of the forwardnetworks/terraform-provider-forward provider.

This file gives a shallow embedding, in Lean 4, of the parts of the Go code
that carry the interesting behaviour:

* the SDK HTTP client (internal/sdk/client.go): the retry predicate
  shouldRetryStatus, the retry/backoff loop of Client.Do, the defaulting
  logic of NewClient, and the request construction of Client.NewRequest;
* the snapshot accessors (internal/sdk/snapshots.go): GetSnapshot and
  DeleteSnapshot status handling;
* the intent-check accessors (internal/sdk/intent_checks.go):
  ListSnapshotChecks and GetSnapshotCheck;
* the provider configuration resolution (internal/provider/provider.go);
* the snapshot polling loop (internal/provider/snapshot_resource.go):
  SnapshotResource.waitForProcessed.

Network transport, JSON decoding and the Terraform plugin framework are
external to the repository; they are represented by explicit inputs
(attempt outcomes, decoded payloads, environment lookups).  Go machine
integers (time.Duration, int) are modelled as Int with explicit 64-bit
twos-complement wrapping where the code can overflow.
-/

namespace Forward

/-! ## 64-bit twos-complement arithmetic

The Go time.Duration type is an int64.  Arithmetic on it wraps around modulo 2^64
(twos complement); wrap64 maps a mathematical integer to the int64 value
with the same low 64 bits.
-/

/-- The int64 value whose twos-complement bit pattern equals n mod 2^64. -/
def wrap64 (n : Int) : Int :=
  (n + 2 ^ 63) % 2 ^ 64 - 2 ^ 63

/-- Go left shift x << s on int64: the product x * 2^s, wrapped. -/
def shlInt64 (x : Int) (s : Nat) : Int :=
  wrap64 (x * 2 ^ s)

/-- Go int64 multiplication: the product, wrapped. -/
def mulInt64 (a b : Int) : Int :=
  wrap64 (a * b)

/-! ## ASCII string helpers

strings.EqualFold and strings.ToLower from the Go standard library,
restricted to ASCII (every string they are applied to in this code is
ASCII: snapshot states such as "PROCESSED"/"FAILED" and error messages
produced by the SDK itself).
-/

/-- Lower-case an ASCII character. -/
def asciiLowerChar (c : Char) : Char :=
  if 'A' ≤ c ∧ c ≤ 'Z' then Char.ofNat (c.toNat + 32) else c

/-- Lower-case an ASCII string (model of strings.ToLower). -/
def asciiLower (s : String) : String :=
  String.mk (s.data.map asciiLowerChar)

/-- Model of strings.EqualFold on ASCII strings. -/
def eqFold (a b : String) : Bool :=
  asciiLower a = asciiLower b

/-- Does the second character list start with the first? -/
def leadsWith : List Char → List Char → Bool
  | [], _ => true
  | _ :: _, [] => false
  | a :: as, b :: bs => a = b && leadsWith as bs

/-- Model of strings.Contains: does hay contain needle as a substring? -/
def containsChars (needle hay : List Char) : Bool :=
  (List.range (hay.length + 1)).any fun i => leadsWith needle (hay.drop i)

/-- strings.Contains(strings.ToLower(msg), "not found"), the test used by
the snapshot resource to classify SDK errors as not-found errors. -/
def errMentionsNotFound (msg : String) : Bool :=
  containsChars "not found".data (asciiLower msg).data

/-- An ASCII whitespace character (the whitespace the IDs passed to the
SDK can contain). -/
def isSpaceChar (c : Char) : Bool :=
  c = ' ' || c = '\t' || c = '\n' || c = '\r'

/-- Model of strings.TrimSpace restricted to ASCII whitespace. -/
def trimSpace (s : String) : String :=
  String.mk (((s.data.dropWhile isSpaceChar).reverse.dropWhile
    isSpaceChar).reverse)

/-! ## URL model (net/url, restricted)

The Go url.URL type, keeping the components this provider uses: scheme, host,
path and raw query.  User info, opaque URLs and fragments never occur in
the requests the provider builds and are not modelled.  ResolveReference
follows the branch structure of the net/url (*URL).ResolveReference method; the
dot-segment removal of resolvePath is not modelled (no request path in
this repository contains "." or ".." segments), so mergePaths only
performs the merge step of RFC 3986 section 5.3.
-/

structure URLModel where
  scheme : String
  host : String
  path : String
  query : String
  deriving DecidableEq

/-- The merge of a reference path against a base path (net/url resolvePath,
without dot-segment removal): an empty reference keeps the base path, an
absolute reference replaces it, and a relative reference replaces the last
segment of the base path. -/
def mergePaths (base ref : String) : String :=
  if ref = "" then base
  else if leadsWith ['/'] ref.data then ref
  else
    let i := (base.data.length - ((base.data.reverse).indexOf '/')).max 0
    String.mk (base.data.take i) ++ ref

/-- Model of url.URL.ResolveReference for the components modelled here. -/
def resolveReference (base ref : URLModel) : URLModel :=
  if ref.scheme ≠ "" then ref
  else if ref.host ≠ "" then { ref with scheme := base.scheme }
  else
    { scheme := base.scheme
      host := base.host
      path := mergePaths base.path ref.path
      query := if ref.path = "" ∧ ref.query = "" then base.query else ref.query }

/-! ## The SDK client (internal/sdk/client.go) -/

/-- The fields of sdk.Client that the modelled behaviour depends on.
maxRetries and retryDelay are Go int / time.Duration values, modelled as
Int (retryDelay in nanoseconds, as in Go). -/
structure Client where
  baseURL : URLModel
  apiKey : String
  userAgent : String
  maxRetries : Int
  retryDelay : Int
  deriving DecidableEq

/-- shouldRetryStatus from client.go: retry on 429 (StatusTooManyRequests)
and on any status ≥ 500 other than 501 (StatusNotImplemented). -/
def shouldRetryStatus (status : Int) : Bool :=
  if status = 429 then true
  else if status ≥ 500 ∧ status ≠ 501 then true
  else false

/-- The NewClient defaulting of Config.MaxRetries (client.go lines 90-96):
negative values are clamped to 0, and 0 becomes 3. -/
def newClientMaxRetries (cfgMaxRetries : Int) : Int :=
  let m := if cfgMaxRetries < 0 then 0 else cfgMaxRetries
  if m = 0 then 3 else m

/-- The NewClient defaulting of Config.RetryDelay (client.go lines 98-101):
non-positive values become 500 * time.Millisecond = 500000000 ns. -/
def newClientRetryDelay (cfgRetryDelay : Int) : Int :=
  if cfgRetryDelay ≤ 0 then 500000000 else cfgRetryDelay

/-- The outcome of one attempt of the underlying http.Client.Do call:
either a transport error or a response with a status code.  (The response
body is irrelevant to the retry loop and not modelled.) -/
inductive Attempt where
  | transportErr (msg : String)
  | response (status : Int)
  deriving DecidableEq

/-- The value Client.Do returns: the response of a successful attempt, or
the error kept from the last attempt. -/
inductive DoResult where
  | ok (status : Int)
  | err (msg : String)
  deriving DecidableEq

/-- The error message Client.Do records for a failed attempt: the
transport error itself, or "received status %d". -/
def attemptErrMsg : Attempt → String
  | .transportErr m => m
  | .response s => "received status " ++ toString s

/-- Does this attempt outcome cause Client.Do to retry (transport error,
or a response whose status shouldRetryStatus accepts)? -/
def attemptIsRetryable : Attempt → Bool
  | .transportErr _ => true
  | .response s => shouldRetryStatus s

/-- The backoff Client.Do computes before retry number k (k ≥ 1):
c.retryDelay * time.Duration(1 << uint(k-1)), evaluated in int64
arithmetic, so both the shift and the product wrap at 64 bits. -/
def backoffGo (retryDelay : Int) (k : Nat) : Int :=
  mulInt64 retryDelay (shlInt64 1 (k - 1))

/-- The retry loop of Client.Do (client.go lines 144-188), from a given
attempt counter.  outcomes i is the result of the (i+1)-th underlying
http.Client.Do call.  Returns the final result together with the list of
backoff durations waited between attempts.  Body rewinding, response-body
draining and context cancellation do not affect which result is returned
and are not modelled. -/
def Client.DoLoop (c : Client) (outcomes : Nat → Attempt) (attempt : Nat) :
    DoResult × List Int :=
  match outcomes attempt with
  | .response s =>
      if shouldRetryStatus s then
        -- lastErr = fmt.Errorf("received status %d", s)
        if h : (attempt : Int) ≥ c.maxRetries then
          (.err (attemptErrMsg (.response s)), [])
        else
          let rest := Client.DoLoop c outcomes (attempt + 1)
          (rest.1, backoffGo c.retryDelay (attempt + 1) :: rest.2)
      else
        (.ok s, [])
  | .transportErr m =>
      if h : (attempt : Int) ≥ c.maxRetries then
        (.err m, [])
      else
        let rest := Client.DoLoop c outcomes (attempt + 1)
        (rest.1, backoffGo c.retryDelay (attempt + 1) :: rest.2)
  termination_by (c.maxRetries - attempt).toNat
  decreasing_by
    all_goals simp only [not_le] at h
    all_goals omega

/-- Client.Do: the retry loop started at attempt counter 0. -/
def Client.Do (c : Client) (outcomes : Nat → Attempt) : DoResult × List Int :=
  Client.DoLoop c outcomes 0

/-- The request Client.NewRequest builds (client.go lines 116-141).
Headers are modelled by their four Set calls; Content-Type is set exactly
when a body is supplied (a freshly created request never has one set). -/
structure Request where
  method : String
  url : URLModel
  authorization : Option String
  userAgent : Option String
  accept : Option String
  contentType : Option String
  deriving DecidableEq

/-- Client.NewRequest: resolve the (already url.Parse-d) relative path rel
against the configured base URL and attach the bearer-token headers. -/
def Client.NewRequest (c : Client) (method : String) (rel : URLModel)
    (hasBody : Bool) : Request :=
  { method := method
    url := resolveReference c.baseURL rel
    authorization := some ("Bearer " ++ c.apiKey)
    userAgent := some c.userAgent
    accept := some "application/json"
    contentType := if hasBody then some "application/json" else none }

/-! ## Snapshot accessors (internal/sdk/snapshots.go)

The transport (Client.Do) and JSON decoding are external inputs: a call
outcome is either a transport error or a response with a status code and,
for accessors that decode a payload, the result of decoding the body
(none = the body does not decode into the expected shape).
-/

/-- The fields of sdk.Snapshot the provider logic reads. -/
structure Snapshot where
  id : String
  state : String
  note : String
  creationDateMillis : Option Int
  processedAtMillis : Option Int
  restoredAtMillis : Option Int
  deriving DecidableEq

/-- A snapshot GET response: status code and the decoded body. -/
structure SnapshotResp where
  status : Int
  decoded : Option Snapshot
  deriving DecidableEq

/-- Client.GetSnapshot (snapshots.go lines 237-276): trim the IDs, reject
empty ones, then map the response status: 404 becomes a dedicated
"snapshot ... not found" error, any other non-200 status becomes an
"unexpected status" error, and only a 200 response is decoded. -/
def GetSnapshot (networkID snapshotID : String)
    (doResult : Except String SnapshotResp) : Except String Snapshot :=
  let networkID := trimSpace networkID
  let snapshotID := trimSpace snapshotID
  if networkID = "" ∨ snapshotID = "" then
    .error "networkID and snapshotID must be provided"
  else
    match doResult with
    | .error e => .error ("execute snapshot get request: " ++ e)
    | .ok resp =>
        if resp.status = 404 then
          .error ("snapshot " ++ snapshotID ++ " not found")
        else if resp.status ≠ 200 then
          .error ("unexpected status " ++ toString resp.status ++
            " retrieving snapshot")
        else
          match resp.decoded with
          | none => .error "decode snapshot response"
          | some snap => .ok snap

/-- Client.DeleteSnapshot (snapshots.go lines 279-311): trim the ID, reject
an empty one, then treat 404 as success, 200/204 as success, and any other
status as an error.  doResult carries only the response status (the body
is read only to build error messages). -/
def DeleteSnapshot (snapshotID : String)
    (doResult : Except String Int) : Except String Unit :=
  let snapshotID := trimSpace snapshotID
  if snapshotID = "" then .error "snapshotID must be provided"
  else
    match doResult with
    | .error e => .error ("execute snapshot delete request: " ++ e)
    | .ok status =>
        if status = 404 then .ok ()
        else if status ≠ 200 ∧ status ≠ 204 then
          .error ("unexpected status " ++ toString status ++
            " deleting snapshot")
        else .ok ()

/-! ## Intent-check accessors (internal/sdk/intent_checks.go) -/

/-- The fields of sdk.CheckResult the claims are about (the remaining
fields are carried through unchanged in exactly the same way). -/
structure CheckResult where
  id : String
  name : String
  status : String
  priority : String
  numViolations : Option Int
  deriving DecidableEq

/-- A check-list GET response: status code and decoded payload. -/
structure CheckListResp where
  status : Int
  decoded : Option (List CheckResult)
  deriving DecidableEq

/-- A single-check GET response: status code and decoded payload.  (The
diagnosis attached to CheckResultWithDiagnosis does not affect the check
fields and is not modelled.) -/
structure CheckResp where
  status : Int
  decoded : Option CheckResult
  deriving DecidableEq

/-- Client.ListSnapshotChecks (intent_checks.go lines 204-267): trim the
snapshot ID, reject an empty one, require status 200, then return the
decoded check list verbatim. -/
def ListSnapshotChecks (snapshotID : String)
    (doResult : Except String CheckListResp) :
    Except String (List CheckResult) :=
  let snapshotID := trimSpace snapshotID
  if snapshotID = "" then .error "snapshotID must be provided"
  else
    match doResult with
    | .error e => .error ("execute request: " ++ e)
    | .ok resp =>
        if resp.status ≠ 200 then
          .error ("unexpected status " ++ toString resp.status ++
            " retrieving checks")
        else
          match resp.decoded with
          | none => .error "decode checks response"
          | some checks => .ok checks

/-- Client.GetSnapshotCheck (intent_checks.go lines 320-355): trim both
IDs, reject empty ones, require status 200, then return the decoded check
verbatim. -/
def GetSnapshotCheck (snapshotID checkID : String)
    (doResult : Except String CheckResp) : Except String CheckResult :=
  let snapshotID := trimSpace snapshotID
  let checkID := trimSpace checkID
  if snapshotID = "" ∨ checkID = "" then
    .error "snapshotID and checkID must be provided"
  else
    match doResult with
    | .error e => .error ("retrieve check request failed: " ++ e)
    | .ok resp =>
        if resp.status ≠ 200 then
          .error ("unexpected status " ++ toString resp.status ++
            " retrieving check")
        else
          match resp.decoded with
          | none => .error "decode check response"
          | some check => .ok check

/-! ## Provider configuration (internal/provider/provider.go)

ForwardProvider.Configure resolves base URL, API key and network ID from
the explicit configuration (a Terraform string attribute, null or a
value) with environment-variable fallback, then either records attribute
errors or proceeds to construct the SDK client.  The environment is an
explicit lookup function (os.Getenv returns "" for unset variables).
The construction of the client itself (sdk.NewClient) is downstream of
the resolution and is modelled by the resolved value triple.
-/

/-- The provider configuration attributes read by Configure.  none models
a null Terraform value. -/
structure ProviderConfig where
  baseURL : Option String
  apiKey : Option String
  insecure : Option Bool
  networkID : Option String
  deriving DecidableEq

/-- ValueString of a possibly-null Terraform string: "" when null. -/
def cfgString : Option String → String
  | some s => s
  | none => ""

/-- The resolved base URL: the explicit value when non-null and non-empty,
otherwise the FORWARD_BASE_URL environment variable. -/
def resolvedBaseURL (cfg : ProviderConfig) (env : String → String) : String :=
  let baseURL := cfgString cfg.baseURL
  if baseURL = "" then env "FORWARD_BASE_URL" else baseURL

/-- The resolved API key: the explicit value when non-null and non-empty,
otherwise FORWARD_API_KEY, otherwise FORWARD_API_TOKEN. -/
def resolvedAPIKey (cfg : ProviderConfig) (env : String → String) : String :=
  let apiKey := cfgString cfg.apiKey
  let apiKey := if apiKey = "" then env "FORWARD_API_KEY" else apiKey
  if apiKey = "" then env "FORWARD_API_TOKEN" else apiKey

/-- The resolved network ID: the explicit value when non-null and
non-empty, otherwise FORWARD_NETWORK_ID. -/
def resolvedNetworkID (cfg : ProviderConfig) (env : String → String) : String :=
  let networkID := cfgString cfg.networkID
  if networkID = "" then env "FORWARD_NETWORK_ID" else networkID

/-- The values Configure hands to sdk.NewClient and to resources. -/
structure ConfiguredData where
  baseURL : String
  apiKey : String
  networkID : String
  deriving DecidableEq

/-- The observable outcome of Configure: the attribute paths for which an
attribute error was added, and the provider data when construction
proceeds (none when Configure returned early). -/
structure ConfigureResult where
  attributeErrors : List String
  providerData : Option ConfiguredData
  deriving DecidableEq

/-- ForwardProvider.Configure (provider.go lines 94-188), after the config
has been read: resolve the three values, then check them in order
base_url, api_key, network_id, returning at the first empty one with an
attribute error for it; when all three are non-empty, proceed to client
construction with the resolved values. -/
def Configure (cfg : ProviderConfig) (env : String → String) :
    ConfigureResult :=
  let baseURL := resolvedBaseURL cfg env
  let apiKey := resolvedAPIKey cfg env
  let networkID := resolvedNetworkID cfg env
  if baseURL = "" then
    { attributeErrors := ["base_url"], providerData := none }
  else if apiKey = "" then
    { attributeErrors := ["api_key"], providerData := none }
  else if networkID = "" then
    { attributeErrors := ["network_id"], providerData := none }
  else
    { attributeErrors := []
      providerData := some ⟨baseURL, apiKey, networkID⟩ }

/-! ## Snapshot polling (internal/provider/snapshot_resource.go)

SnapshotResource.waitForProcessed runs a ticker at the poll interval and
a timeout channel; every tick performs one GetSnapshot call.  The loop is
modelled on the finite sequence of poll outcomes that occur before the
timeout channel fires: the list element i is the outcome of the
GetSnapshot call at tick i+1, and reaching the end of the list is the
timeout firing.  Context cancellation is not modelled (it only produces
ctx.Err() and ends the wait).  The state updates applied by
updateSnapshotState do not influence the loop result and are not tracked
here.
-/

/-- The outcome of one GetSnapshot poll inside waitForProcessed. -/
inductive PollResult where
  | failure (msg : String)
  | polled (snap : Snapshot)
  deriving DecidableEq

/-- waitForProcessed (snapshot_resource.go lines 238-268) on the sequence
of poll outcomes that occur before the timeout fires: an error whose
message mentions "not found" (case, insensitively) aborts the wait with
that error, any other error is swallowed and polling continues; a
snapshot whose state folds to PROCESSED completes the wait, one that
folds to FAILED aborts it, anything else continues; exhausting the polls
is the timeout. -/
def waitForProcessed (snapshotID : String) :
    List PollResult → Except String Unit
  | [] => .error "snapshot processing timed out"
  | .failure msg :: rest =>
      if errMentionsNotFound msg then .error msg
      else waitForProcessed snapshotID rest
  | .polled snap :: rest =>
      if eqFold snap.state "PROCESSED" then .ok ()
      else if eqFold snap.state "FAILED" then
        .error ("snapshot " ++ snapshotID ++ " failed")
      else waitForProcessed snapshotID rest

/-- Does this poll outcome end the wait (decisively, one way or the
other)?  Exactly the outcomes on which waitForProcessed does not recurse. -/
def pollStops : PollResult → Bool
  | .failure msg => errMentionsNotFound msg
  | .polled snap => eqFold snap.state "PROCESSED" || eqFold snap.state "FAILED"

/-- Is this poll outcome a snapshot in (case-folded) PROCESSED state? -/
def pollIsProcessed : PollResult → Bool
  | .failure _ => false
  | .polled snap => eqFold snap.state "PROCESSED"

/-- The first decisive poll outcome of the sequence, if any. -/
def firstDecisive : List PollResult → Option PollResult
  | [] => none
  | p :: rest => if pollStops p then some p else firstDecisive rest

/-! ## Shared lemmas about the retry loop -/

/-- Wrapping is the identity on values that fit in an int64. -/
theorem wrap64_eq_self {n : Int} (h0 : -(2 ^ 63) ≤ n) (h1 : n < 2 ^ 63) :
    wrap64 n = n := by
  unfold wrap64
  have : (n + 2 ^ 63) % 2 ^ 64 = n + 2 ^ 63 :=
    Int.emod_eq_of_lt (by omega) (by omega)
  omega

/-- When every attempt fails retryably, the loop from attempt counter a
(with a within bounds) runs to the retry budget: it returns the error of
the attempt numbered maxRetries (0-based) and waits the Go backoff before
each retry a+1, a+2, ..., maxRetries. -/
theorem DoLoop_all_retry (c : Client) (outcomes : Nat → Attempt)
    (hall : ∀ i, attemptIsRetryable (outcomes i) = true)
    (attempt : Nat) (ha : attempt ≤ c.maxRetries.toNat) :
    Client.DoLoop c outcomes attempt =
      (.err (attemptErrMsg (outcomes c.maxRetries.toNat)),
       (List.range (c.maxRetries.toNat - attempt)).map
         (fun j => backoffGo c.retryDelay (attempt + j + 1))) := by
  generalize hf : c.maxRetries.toNat - attempt = fuel
  induction fuel generalizing attempt with
  | zero =>
      have hstop : (attempt : Int) ≥ c.maxRetries := by omega
      have hatt : attempt = c.maxRetries.toNat := by omega
      rw [Client.DoLoop]
      rcases ho : outcomes attempt with m | s
      · simp [dif_pos hstop, ← hatt, ho, attemptErrMsg]
      · have hr := hall attempt
        rw [ho] at hr
        simp only [attemptIsRetryable] at hr
        simp [hr, dif_pos hstop, ← hatt, ho, attemptErrMsg]
  | succ n ih =>
      have hlt : ¬ ((attempt : Int) ≥ c.maxRetries) := by omega
      have hrec := ih (attempt + 1) (by omega) (by omega)
      have hfun : ((fun j => backoffGo c.retryDelay (attempt + j + 1)) ∘ Nat.succ) =
          (fun j => backoffGo c.retryDelay (attempt + 1 + j + 1)) := by
        funext j
        simp only [Function.comp]
        congr 1
        omega
      have hrange :
          (List.range (n + 1)).map
            (fun j => backoffGo c.retryDelay (attempt + j + 1)) =
          backoffGo c.retryDelay (attempt + 1) ::
            (List.range n).map
              (fun j => backoffGo c.retryDelay (attempt + 1 + j + 1)) := by
        rw [List.range_succ_eq_map, List.map_cons, List.map_map, hfun]
      rw [Client.DoLoop]
      rcases ho : outcomes attempt with m | s
      · simp only [ho, dif_neg hlt, hrec, hf, hrange]
      · have hr := hall attempt
        rw [ho] at hr
        simp only [attemptIsRetryable] at hr
        simp only [ho, hr, if_true, dif_neg hlt, hrec, hf, hrange]

/-- The retry loop never performs more retries than the remaining retry
budget allows: the wait list from attempt counter a has length at most
(maxRetries - a). -/
theorem DoLoop_length_le (c : Client) (outcomes : Nat → Attempt)
    (attempt : Nat) :
    (Client.DoLoop c outcomes attempt).2.length ≤
      (c.maxRetries - (attempt : Int)).toNat := by
  generalize hf : (c.maxRetries - (attempt : Int)).toNat = fuel
  induction fuel generalizing attempt with
  | zero =>
      have hstop : (attempt : Int) ≥ c.maxRetries := by omega
      rw [Client.DoLoop]
      rcases ho : outcomes attempt with m | s
      · simp [dif_pos hstop]
      · by_cases hr : shouldRetryStatus s
        · simp [hr, dif_pos hstop]
        · simp [hr]
  | succ n ih =>
      have hlt : ¬ ((attempt : Int) ≥ c.maxRetries) := by omega
      have hrec := ih (attempt + 1) (by omega)
      rw [Client.DoLoop]
      rcases ho : outcomes attempt with m | s
      · simp only [dif_neg hlt, List.length_cons]
        omega
      · by_cases hr : shouldRetryStatus s
        · simp only [hr, if_true, dif_neg hlt, List.length_cons]
          omega
        · simp [hr]

/-- A non-retryable response at the current attempt is returned as is,
with no further waiting. -/
theorem DoLoop_return_now (c : Client) (outcomes : Nat → Attempt)
    (attempt : Nat) (s : Int) (ho : outcomes attempt = .response s)
    (hr : shouldRetryStatus s = false) :
    Client.DoLoop c outcomes attempt = (.ok s, []) := by
  rw [Client.DoLoop, ho]
  simp [hr]

/-- A retryable first outcome with retry budget left makes the loop wait
at least once: the wait list is non-empty. -/
theorem DoLoop_retries_once (c : Client) (outcomes : Nat → Attempt)
    (attempt : Nat) (hbudget : ((attempt : Int) < c.maxRetries))
    (hfail : attemptIsRetryable (outcomes attempt) = true) :
    (Client.DoLoop c outcomes attempt).2 ≠ [] := by
  have hlt : ¬ ((attempt : Int) ≥ c.maxRetries) := by omega
  rw [Client.DoLoop]
  rcases ho : outcomes attempt with m | s
  · simp [dif_neg hlt]
  · rw [ho] at hfail
    simp only [attemptIsRetryable] at hfail
    simp [hfail, dif_neg hlt]

/-- When the mathematical product retryDelay * 2^(k-1) fits in an int64
(and the delay is non-negative), the Go backoff computation agrees with
it: no wrapping occurs. -/
theorem backoffGo_eq_of_no_overflow (rd : Int) (k : Nat) (h0 : 0 ≤ rd)
    (hlt : rd * 2 ^ (k - 1) < 2 ^ 63) :
    backoffGo rd k = rd * 2 ^ (k - 1) := by
  unfold backoffGo mulInt64 shlInt64
  rcases eq_or_lt_of_le h0 with h | h
  · rw [← h]
    simp only [zero_mul]
    decide
  · have hp : (0 : Int) < 2 ^ (k - 1) := by positivity
    have hle : (2 : Int) ^ (k - 1) ≤ rd * 2 ^ (k - 1) :=
      le_mul_of_one_le_left (le_of_lt hp) h
    have hin : wrap64 ((2 : Int) ^ (k - 1)) = 2 ^ (k - 1) :=
      wrap64_eq_self (by linarith) (by linarith)
    rw [one_mul, hin]
    exact wrap64_eq_self (by nlinarith) hlt

/-! ## Claims about the retry loop (C1, C2, C3) -/

/-- C1 (counterexample): the claim says Client.Do retries on every 5xx
status, but 501 is a 5xx status that shouldRetryStatus rejects, and a 501
response is returned to the caller without any retry. -/
theorem C1_counterexample :
    shouldRetryStatus 501 = false ∧ (500 ≤ 501 ∧ 501 < 600) ∧
    Client.Do ⟨⟨"https", "fwd.app", "", ""⟩, "key", "ua", 3, 500000000⟩
      (fun _ => .response 501) = (.ok 501, []) := by
  refine ⟨by decide, by norm_num, ?_⟩
  exact DoLoop_return_now _ _ 0 501 rfl (by decide)

/-- C1 (amended): a response received by Client.Do triggers a retry
exactly when its status is 429 or is at least 500 and different from 501
(so 501 Not Implemented, although a 5xx status, is returned without
retry); every response with a non-retryable status is returned to the
caller with no retry performed. -/
theorem C1_retry_condition (s : Int) (c : Client) (outcomes : Nat → Attempt)
    (hfirst : outcomes 0 = .response s) (hbudget : 1 ≤ c.maxRetries) :
    (shouldRetryStatus s = true ↔ (s = 429 ∨ (500 ≤ s ∧ s ≠ 501)))
    ∧ (Client.Do c outcomes = (.ok s, []) ↔ shouldRetryStatus s = false) := by
  constructor
  · unfold shouldRetryStatus
    split_ifs with h1 h2 <;> simp_all
  · constructor
    · intro hret
      by_contra hr
      rw [Bool.not_eq_false] at hr
      have hne := DoLoop_retries_once c outcomes 0 (by omega)
        (by rw [hfirst]; simp [attemptIsRetryable, hr])
      unfold Client.Do at hret
      rw [hret] at hne
      simp at hne
    · intro hr
      exact DoLoop_return_now c outcomes 0 s hfirst hr

/-- C1 (witness): with a 404 first response (not retryable), Client.Do
returns it immediately with no waits. -/
theorem C1_retry_condition_witness :
    Client.Do ⟨⟨"https", "fwd.app", "", ""⟩, "key", "ua", 3, 500000000⟩
      (fun _ => .response 404) = (.ok 404, []) := by
  have h := C1_retry_condition 404
    ⟨⟨"https", "fwd.app", "", ""⟩, "key", "ua", 3, 500000000⟩
    (fun _ => .response 404) rfl (by norm_num)
  exact h.2.mpr (by decide)

/-- C2: when every attempt fails (transport error or retryable status),
Client.Do performs exactly maxRetries retries — maxRetries + 1 attempts in
total, the waits list having one entry per retry — and returns the error
recorded from the last attempt (the attempt with 0-based index
maxRetries); moreover for arbitrary attempt outcomes the loop never
performs more than maxRetries retries, and it always terminates (DoLoop is
a total function). -/
theorem C2_bounded_retries (c : Client) (outcomes : Nat → Attempt)
    (hall : ∀ i, attemptIsRetryable (outcomes i) = true) :
    (Client.Do c outcomes).1 = .err (attemptErrMsg (outcomes c.maxRetries.toNat))
    ∧ (Client.Do c outcomes).2.length = c.maxRetries.toNat
    ∧ ∀ other : Nat → Attempt,
        (Client.Do c other).2.length ≤ c.maxRetries.toNat := by
  have h := DoLoop_all_retry c outcomes hall 0 (Nat.zero_le _)
  unfold Client.Do
  refine ⟨by rw [h], by rw [h]; simp, ?_⟩
  intro other
  have hle := DoLoop_length_le c other 0
  simpa using hle

/-- C2 (witness): with maxRetries = 2 and every attempt a transport
error, Do returns that error after exactly 2 retries. -/
theorem C2_bounded_retries_witness :
    (Client.Do ⟨⟨"https", "fwd.app", "", ""⟩, "key", "ua", 2, 500000000⟩
      (fun _ => .transportErr "boom")).1 = .err "boom"
    ∧ (Client.Do ⟨⟨"https", "fwd.app", "", ""⟩, "key", "ua", 2, 500000000⟩
      (fun _ => .transportErr "boom")).2.length = 2 := by
  have h := C2_bounded_retries
    ⟨⟨"https", "fwd.app", "", ""⟩, "key", "ua", 2, 500000000⟩
    (fun _ => .transportErr "boom") (fun i => rfl)
  exact ⟨h.1, h.2.1⟩

/-- C3 (counterexample): the delay before the k-th retry is computed in
int64 arithmetic and wraps.  With the default 500 ms delay and
maxRetries = 40, the delay before the 36-th retry is a negative wrapped
value, not retryDelay * 2^35. -/
theorem C3_counterexample :
    ((Client.Do ⟨⟨"https", "fwd.app", "", ""⟩, "key", "ua", 40, 500000000⟩
      (fun _ => .transportErr "boom")).2)[35]? =
        some (-1266874889709551616)
    ∧ (-1266874889709551616 : Int) ≠ 500000000 * 2 ^ 35 := by
  constructor
  · unfold Client.Do
    rw [DoLoop_all_retry
      ⟨⟨"https", "fwd.app", "", ""⟩, "key", "ua", 40, 500000000⟩
      (fun _ => .transportErr "boom") (fun i => rfl) 0 (Nat.zero_le _)]
    have hb : (35 : Nat) < ((40 : Int)).toNat := by norm_num
    simp only [Nat.sub_zero, List.getElem?_map, List.getElem?_range, hb,
      if_true, Option.map_some']
    decide
  · decide

/-- C3 (amended): under all-failing attempts, the delay Client.Do waits
before the k-th retry (1 ≤ k ≤ maxRetries) is
retryDelay * 2^(k-1) computed in 64-bit signed arithmetic
(c.retryDelay * time.Duration(1 << uint(k-1))); this equals the
mathematical value retryDelay * 2^(k-1) whenever that product is below
2^63 (for the default 500 ms delay, for every k ≤ 35), and NewClient
defaults the retry delay to 500 ms = 500000000 ns whenever the configured
RetryDelay is zero or negative. -/
theorem C3_exponential_backoff (c : Client) (outcomes : Nat → Attempt)
    (hall : ∀ i, attemptIsRetryable (outcomes i) = true)
    (k : Nat) (hk1 : 1 ≤ k) (hk : k ≤ c.maxRetries.toNat) :
    ((Client.Do c outcomes).2)[k - 1]? = some (backoffGo c.retryDelay k)
    ∧ (0 ≤ c.retryDelay → c.retryDelay * 2 ^ (k - 1) < 2 ^ 63 →
        backoffGo c.retryDelay k = c.retryDelay * 2 ^ (k - 1))
    ∧ (∀ d : Int, d ≤ 0 → newClientRetryDelay d = 500000000) := by
  refine ⟨?_, fun h0 hlt => backoffGo_eq_of_no_overflow _ _ h0 hlt,
    fun d hd => by simp [newClientRetryDelay, hd]⟩
  unfold Client.Do
  rw [DoLoop_all_retry c outcomes hall 0 (Nat.zero_le _)]
  have hb : k - 1 < c.maxRetries.toNat := by omega
  simp only [Nat.sub_zero, List.getElem?_map, List.getElem?_range, hb,
    if_true, Option.map_some']
  congr 2
  omega

/-- C3 (witness): with the default 500 ms delay and maxRetries = 3, the
delay before the 3rd retry is 500000000 * 4 ns = 2 s. -/
theorem C3_exponential_backoff_witness :
    ((Client.Do ⟨⟨"https", "fwd.app", "", ""⟩, "key", "ua", 3, 500000000⟩
      (fun _ => .transportErr "boom")).2)[2]? = some (500000000 * 2 ^ 2) := by
  have h := C3_exponential_backoff
    ⟨⟨"https", "fwd.app", "", ""⟩, "key", "ua", 3, 500000000⟩
    (fun _ => .transportErr "boom") (fun i => rfl) 3 (by norm_num) (by norm_num)
  have h1 := h.1
  rw [h.2.1 (by norm_num) (by norm_num)] at h1
  exact h1

/-! ## Claim about request construction (C4) -/

/-- C4: every request built by Client.NewRequest targets the configured
base URL — its URL is the relative path resolved against the configured
base URL, and when the parsed path has no scheme and no host the request
keeps the scheme and host of the base URL — and carries the header
Authorization: Bearer followed by the API key, for every method and
path. -/
theorem C4_new_request (c : Client) (method : String) (rel : URLModel)
    (hasBody : Bool) :
    (c.NewRequest method rel hasBody).url = resolveReference c.baseURL rel
    ∧ (c.NewRequest method rel hasBody).authorization =
        some ("Bearer " ++ c.apiKey)
    ∧ (rel.scheme = "" → rel.host = "" →
        (c.NewRequest method rel hasBody).url.scheme = c.baseURL.scheme
        ∧ (c.NewRequest method rel hasBody).url.host = c.baseURL.host)
    ∧ (c.NewRequest method rel hasBody).method = method := by
  refine ⟨rfl, rfl, ?_, rfl⟩
  intro hs hh
  unfold Client.NewRequest resolveReference
  simp [hs, hh]

/-- C4 (witness): a GET for path /api/test carries the bearer token and
stays on the configured host. -/
theorem C4_new_request_witness :
    (Client.NewRequest ⟨⟨"https", "fwd.app", "", ""⟩, "key", "ua", 3, 500000000⟩
      "GET" ⟨"", "", "/api/test", ""⟩ false).authorization =
        some ("Bearer " ++ "key")
    ∧ (Client.NewRequest ⟨⟨"https", "fwd.app", "", ""⟩, "key", "ua", 3, 500000000⟩
      "GET" ⟨"", "", "/api/test", ""⟩ false).url.host = "fwd.app" := by
  have h := C4_new_request ⟨⟨"https", "fwd.app", "", ""⟩, "key", "ua", 3, 500000000⟩
    "GET" ⟨"", "", "/api/test", ""⟩ false
  exact ⟨h.2.1, (h.2.2.1 rfl rfl).2⟩

/-! ## Claims about the snapshot accessors (C7, C9) -/

/-- C7: Client.GetSnapshot maps response statuses to errors: every status
other than 200 yields an error and no snapshot, a 404 yields the
dedicated "snapshot ... not found" error, and only a 200 response is
decoded and returned; conversely a returned snapshot implies status 200
and a successfully decoded body. -/
theorem C7_get_snapshot_status (networkID snapshotID : String)
    (resp : SnapshotResp)
    (hn : trimSpace networkID ≠ "") (hs : trimSpace snapshotID ≠ "") :
    (resp.status ≠ 200 →
      ∀ snap, GetSnapshot networkID snapshotID (.ok resp) ≠ .ok snap)
    ∧ (resp.status = 404 →
      GetSnapshot networkID snapshotID (.ok resp) =
        .error ("snapshot " ++ trimSpace snapshotID ++ " not found"))
    ∧ (resp.status = 200 → ∀ snap, resp.decoded = some snap →
      GetSnapshot networkID snapshotID (.ok resp) = .ok snap)
    ∧ (∀ snap, GetSnapshot networkID snapshotID (.ok resp) = .ok snap →
      resp.status = 200 ∧ resp.decoded = some snap) := by
  unfold GetSnapshot
  simp only [hn, hs, or_self, if_false, false_or, if_neg]
  refine ⟨?_, ?_, ?_, ?_⟩
  · intro h200 snap
    by_cases h404 : resp.status = 404
    · simp [h404]
    · simp only [h404, if_false]
      rw [if_pos h200]
      simp
  · intro h404
    simp [h404]
  · intro h200 snap hdec
    have h404 : resp.status ≠ 404 := by omega
    simp [h404, h200, hdec]
  · intro snap h
    by_cases h404 : resp.status = 404
    · simp [h404] at h
    · by_cases h200 : resp.status = 200
      · refine ⟨h200, ?_⟩
        rw [if_neg h404, if_neg (by simp [h200])] at h
        rcases hdec : resp.decoded with _ | s
        · rw [hdec] at h
          simp at h
        · rw [hdec] at h
          simp at h
          rw [h]
      · rw [if_neg h404, if_pos h200] at h
        simp at h

/-- C7 (witness): a 200 response with a decodable body is returned as the
snapshot, and a 404 response gives the not-found error. -/
theorem C7_get_snapshot_status_witness :
    GetSnapshot "net" "snap"
      (.ok ⟨200, some ⟨"snap", "PROCESSED", "", none, none, none⟩⟩) =
      .ok ⟨"snap", "PROCESSED", "", none, none, none⟩
    ∧ GetSnapshot "net" "snap" (.ok ⟨404, none⟩) =
      .error ("snapshot " ++ trimSpace "snap" ++ " not found") := by
  constructor
  · exact (C7_get_snapshot_status "net" "snap"
      ⟨200, some ⟨"snap", "PROCESSED", "", none, none, none⟩⟩
      (by decide) (by decide)).2.2.1 rfl _ rfl
  · exact (C7_get_snapshot_status "net" "snap" ⟨404, none⟩
      (by decide) (by decide)).2.1 rfl

/-- C9: Client.DeleteSnapshot treats a 404 Not Found response as success:
for every snapshot ID (non-empty after trimming, so that a request is
actually made), a 404 response makes DeleteSnapshot return nil, so
deleting an already-deleted or unknown snapshot succeeds. -/
theorem C9_delete_not_found_ok (snapshotID : String)
    (hs : trimSpace snapshotID ≠ "") :
    DeleteSnapshot snapshotID (.ok 404) = .ok () := by
  unfold DeleteSnapshot
  simp [hs]

/-- C9 (witness): deleting snapshot "snap-1" against a 404 response
succeeds. -/
theorem C9_delete_not_found_ok_witness :
    DeleteSnapshot "snap-1" (.ok 404) = .ok () :=
  C9_delete_not_found_ok "snap-1" (by decide)

/-! ## Claims about the polling loop (C5, C10) -/

/-- C5: the waitForProcessed loop run until its timeout completes
successfully exactly when the first decisive poll observes a snapshot
whose state equals PROCESSED (case-insensitively); it errors when that
first decisive poll observes state FAILED (or a not-found error), and it
returns the timed-out error when no decisive poll happens before the
timeout elapses (the poll sequence is exhausted).  One poll is one
GetSnapshot call per ticker interval. -/
theorem C5_wait_for_processed (snapshotID : String)
    (polls : List PollResult) :
    (waitForProcessed snapshotID polls = .ok () ↔
      ∃ p, firstDecisive polls = some p ∧ pollIsProcessed p = true)
    ∧ (firstDecisive polls = none →
      waitForProcessed snapshotID polls =
        .error "snapshot processing timed out")
    ∧ (∀ m, firstDecisive polls = some (.failure m) →
      waitForProcessed snapshotID polls = .error m)
    ∧ (∀ s, firstDecisive polls = some (.polled s) →
      eqFold s.state "PROCESSED" = false →
      waitForProcessed snapshotID polls =
        .error ("snapshot " ++ snapshotID ++ " failed")) := by
  induction polls with
  | nil => refine ⟨?_, ?_, ?_, ?_⟩ <;> simp [waitForProcessed, firstDecisive]
  | cons p rest ih =>
      rcases p with m | s
      · by_cases hnf : errMentionsNotFound m
        · refine ⟨?_, ?_, ?_, ?_⟩ <;>
            simp [waitForProcessed, firstDecisive, pollStops,
              pollIsProcessed, hnf]
        · simpa [waitForProcessed, firstDecisive, pollStops, hnf] using ih
      · by_cases hp : eqFold s.state "PROCESSED"
        · refine ⟨?_, ?_, ?_, ?_⟩ <;>
            simp [waitForProcessed, firstDecisive, pollStops,
              pollIsProcessed, hp]
        · by_cases hf : eqFold s.state "FAILED"
          · refine ⟨?_, ?_, ?_, ?_⟩ <;>
              simp [waitForProcessed, firstDecisive, pollStops,
                pollIsProcessed, hp, hf]
          · simpa [waitForProcessed, firstDecisive, pollStops, hp, hf]
              using ih

/-- C5 (witness): a poll sequence that sees an in-progress state and then
a lower-case "processed" state completes successfully, and a sequence
whose first decisive state is FAILED errors. -/
theorem C5_wait_for_processed_witness :
    waitForProcessed "s1"
      [.polled ⟨"s1", "IN_PROGRESS", "", none, none, none⟩,
       .polled ⟨"s1", "processed", "", none, none, none⟩] = .ok ()
    ∧ waitForProcessed "s1"
      [.polled ⟨"s1", "FAILED", "", none, none, none⟩] =
        .error ("snapshot " ++ "s1" ++ " failed") := by
  constructor
  · exact (C5_wait_for_processed "s1" _).1.mpr
      ⟨.polled ⟨"s1", "processed", "", none, none, none⟩, by decide, by decide⟩
  · exact (C5_wait_for_processed "s1" _).2.2.2
      ⟨"s1", "FAILED", "", none, none, none⟩ (by decide) (by decide)

/-- C10: while waiting for a snapshot to be processed, a GetSnapshot
error whose message does not contain "not found" is swallowed and polling
continues with the next tick, while an error whose message does contain
"not found" aborts the wait with exactly that error. -/
theorem C10_poll_errors (snapshotID msg : String) (rest : List PollResult) :
    (errMentionsNotFound msg = false →
      waitForProcessed snapshotID (.failure msg :: rest) =
        waitForProcessed snapshotID rest)
    ∧ (errMentionsNotFound msg = true →
      waitForProcessed snapshotID (.failure msg :: rest) = .error msg) := by
  constructor <;> intro h <;> simp [waitForProcessed, h]

/-- C10 (witness): a transient error is swallowed (the wait then times
out at the end of the poll sequence), and a not-found error aborts the
wait with that error. -/
theorem C10_poll_errors_witness :
    waitForProcessed "s1" [.failure "boom"] =
      .error "snapshot processing timed out"
    ∧ waitForProcessed "s1" [.failure "snapshot s1 not found"] =
      .error "snapshot s1 not found" := by
  constructor
  · rw [(C10_poll_errors "s1" "boom" []).1 (by decide)]
    rfl
  · exact (C10_poll_errors "s1" "snapshot s1 not found" []).2 (by decide)

/-! ## Claim about provider configuration (C6) -/

/-- C6 (counterexample): with a fully empty configuration and
environment, both the base URL and the API key resolve to empty, but
Configure returns after adding only the base_url attribute error: no
api_key attribute error is reported even though the API key also remains
empty, contradicting the claim that an attribute error is reported for
each of the three attributes that remains empty. -/
theorem C6_counterexample :
    Configure ⟨none, none, none, none⟩ (fun _ => "") = ⟨["base_url"], none⟩
    ∧ resolvedAPIKey ⟨none, none, none, none⟩ (fun _ => "") = ""
    ∧ "api_key" ∉
        (Configure ⟨none, none, none, none⟩ (fun _ => "")).attributeErrors := by
  refine ⟨by decide, by decide, by decide⟩

/-- C6 (amended): Configure resolves each of base URL, API key and
network ID from the explicit non-null, non-empty configuration value,
otherwise from the environment (FORWARD_BASE_URL; FORWARD_API_KEY then
FORWARD_API_TOKEN; FORWARD_NETWORK_ID); if any of the three remains
empty, Configure reports an attribute error for the first empty one in
the order base_url, api_key, network_id (not for every empty attribute)
and constructs no client; when all three are non-empty it proceeds to
client construction with the resolved values. -/
theorem C6_configure_resolution (cfg : ProviderConfig)
    (env : String → String) :
    (∀ s, cfg.baseURL = some s → s ≠ "" → resolvedBaseURL cfg env = s)
    ∧ (cfgString cfg.baseURL = "" →
        resolvedBaseURL cfg env = env "FORWARD_BASE_URL")
    ∧ (∀ s, cfg.apiKey = some s → s ≠ "" → resolvedAPIKey cfg env = s)
    ∧ (cfgString cfg.apiKey = "" → env "FORWARD_API_KEY" ≠ "" →
        resolvedAPIKey cfg env = env "FORWARD_API_KEY")
    ∧ (cfgString cfg.apiKey = "" → env "FORWARD_API_KEY" = "" →
        resolvedAPIKey cfg env = env "FORWARD_API_TOKEN")
    ∧ (∀ s, cfg.networkID = some s → s ≠ "" → resolvedNetworkID cfg env = s)
    ∧ (cfgString cfg.networkID = "" →
        resolvedNetworkID cfg env = env "FORWARD_NETWORK_ID")
    ∧ (resolvedBaseURL cfg env = "" →
        Configure cfg env = ⟨["base_url"], none⟩)
    ∧ (resolvedBaseURL cfg env ≠ "" → resolvedAPIKey cfg env = "" →
        Configure cfg env = ⟨["api_key"], none⟩)
    ∧ (resolvedBaseURL cfg env ≠ "" → resolvedAPIKey cfg env ≠ "" →
        resolvedNetworkID cfg env = "" →
        Configure cfg env = ⟨["network_id"], none⟩)
    ∧ (resolvedBaseURL cfg env ≠ "" → resolvedAPIKey cfg env ≠ "" →
        resolvedNetworkID cfg env ≠ "" →
        Configure cfg env = ⟨[], some ⟨resolvedBaseURL cfg env,
          resolvedAPIKey cfg env, resolvedNetworkID cfg env⟩⟩) := by
  refine ⟨?_, ?_, ?_, ?_, ?_, ?_, ?_, ?_, ?_, ?_, ?_⟩
  · intro s hsome hne
    unfold resolvedBaseURL
    rw [hsome]
    simp [cfgString, hne]
  · intro h
    unfold resolvedBaseURL
    simp [h]
  · intro s hsome hne
    unfold resolvedAPIKey
    rw [hsome]
    simp [cfgString, hne]
  · intro h henv
    unfold resolvedAPIKey
    simp [h, henv]
  · intro h henv
    unfold resolvedAPIKey
    simp [h, henv]
  · intro s hsome hne
    unfold resolvedNetworkID
    rw [hsome]
    simp [cfgString, hne]
  · intro h
    unfold resolvedNetworkID
    simp [h]
  · intro h
    unfold Configure
    simp [h]
  · intro hb hk
    unfold Configure
    simp [hb, hk]
  · intro hb hk hn
    unfold Configure
    simp [hb, hk, hn]
  · intro hb hk hn
    unfold Configure
    simp [hb, hk, hn]

/-- C6 (witness): an explicit base URL and network ID with the API key
taken from FORWARD_API_KEY yields a configured client with the resolved
triple and no attribute errors. -/
theorem C6_configure_resolution_witness :
    Configure ⟨some "https://x", none, none, some "net"⟩
      (fun v => if v = "FORWARD_API_KEY" then "k" else "") =
      ⟨[], some ⟨"https://x", "k", "net"⟩⟩ := by
  have h := (C6_configure_resolution
    ⟨some "https://x", none, none, some "net"⟩
    (fun v => if v = "FORWARD_API_KEY" then "k" else "")).2.2.2.2.2.2.2.2.2.2
    (by decide) (by decide) (by decide)
  rw [h]
  decide

/-! ## Claim about intent-check statuses (C8) -/

/-- C8 (counterexample): the SDK accepts and returns a check result whose
status is not one of PASS, FAIL, ERROR or TIMEOUT — the client performs
no validation of the status field, so the claimed invariant does not hold
of the code (it is at most a property of the remote API). -/
theorem C8_counterexample :
    ListSnapshotChecks "snap-1"
      (.ok ⟨200, some [⟨"c1", "check", "BANANA", "HIGH", none⟩]⟩) =
      .ok [⟨"c1", "check", "BANANA", "HIGH", none⟩]
    ∧ "BANANA" ∉ (["PASS", "FAIL", "ERROR", "TIMEOUT"] : List String) := by
  exact ⟨by rfl, by decide⟩

/-- C8 (amended): ListSnapshotChecks and GetSnapshotCheck return the
decoded server payload verbatim and do not restrict the status field: a
returned check result carries exactly the status string that was decoded
from the response, and the PASS/FAIL/ERROR/TIMEOUT enumeration is a
property of the remote API, not enforced by this client. -/
theorem C8_status_passthrough (snapshotID checkID : String)
    (listResp : CheckListResp) (resp : CheckResp) :
    (∀ checks, ListSnapshotChecks snapshotID (.ok listResp) = .ok checks →
      listResp.decoded = some checks)
    ∧ (∀ check, GetSnapshotCheck snapshotID checkID (.ok resp) = .ok check →
      resp.decoded = some check) := by
  constructor
  · intro checks h
    unfold ListSnapshotChecks at h
    by_cases he : trimSpace snapshotID = ""
    · simp [he] at h
    · by_cases h200 : listResp.status = 200
      · rcases hdec : listResp.decoded with _ | l
        · simp [he, h200, hdec] at h
        · simp [he, h200, hdec] at h
          rw [h]
      · simp [he, h200] at h
  · intro check h
    unfold GetSnapshotCheck at h
    by_cases he : trimSpace snapshotID = "" ∨ trimSpace checkID = ""
    · simp [he] at h
    · by_cases h200 : resp.status = 200
      · rcases hdec : resp.decoded with _ | ck
        · simp [he, h200, hdec] at h
        · simp [he, h200, hdec] at h
          rw [h]
      · simp [he, h200] at h

/-- C8 (witness): a decoded PASS check is returned with exactly that
status, by both accessors. -/
theorem C8_status_passthrough_witness :
    (⟨200, some [⟨"c1", "check", "PASS", "HIGH", none⟩]⟩ :
        CheckListResp).decoded =
      some [⟨"c1", "check", "PASS", "HIGH", none⟩]
    ∧ (⟨200, some ⟨"c2", "check2", "FAIL", "LOW", none⟩⟩ :
        CheckResp).decoded =
      some ⟨"c2", "check2", "FAIL", "LOW", none⟩ := by
  have h := C8_status_passthrough "snap-1" "c2"
    ⟨200, some [⟨"c1", "check", "PASS", "HIGH", none⟩]⟩
    ⟨200, some ⟨"c2", "check2", "FAIL", "LOW", none⟩⟩
  exact ⟨h.1 _ (by rfl), h.2 _ (by rfl)⟩

end Forward
